import Mathlib

/-!
Verification of the wavcheck core: a shallow embedding, in Lean 4, of the
timecode arithmetic engine, the frame-rate text parser, the duration
formatter, the per-file / cross-file validation rule engine, and the
filename-timecode cleanup pass of the wavcheck repository
(src/wavcheck/timecode.py, check.py, data.py, read.py, report.py).

Numeric conventions of the embedding: Python integers are Nat/Int (they are
arbitrary precision), Python floats are modelled as exact rationals, and
Python statements that can raise exceptions are modelled with Option/Except
carrying an explicit error value.
-/

namespace Wavcheck

/-- The ten supported FPS values (enum `FramesPerSec` in timecode.py). -/
inductive FramesPerSec
  | fps23_976
  | fps24_000
  | fps25_000
  | fps29_970
  | fps30_000
  | fps47_952
  | fps48_000
  | fps50_000
  | fps59_940
  | fps60_000
  deriving DecidableEq, Repr

/-- Exact ratio configuration for a frames-per-second value (`_FpsConfig`). -/
structure FpsConfig where
  frames : ℕ
  perWallSecs : ℕ
  deriving DecidableEq, Repr

/-- The `_FRAME_RATES` dict in timecode.py. -/
def frameRatesDict : FramesPerSec → FpsConfig
  | .fps23_976 => ⟨24000, 1001⟩
  | .fps24_000 => ⟨24, 1⟩
  | .fps25_000 => ⟨25, 1⟩
  | .fps29_970 => ⟨30000, 1001⟩
  | .fps30_000 => ⟨30, 1⟩
  | .fps47_952 => ⟨48000, 1001⟩
  | .fps48_000 => ⟨48, 1⟩
  | .fps50_000 => ⟨50, 1⟩
  | .fps59_940 => ⟨60000, 1001⟩
  | .fps60_000 => ⟨60, 1⟩

/-- The `_DROP_FRAMES_PER_10MINS` dict in timecode.py: only 29.97 and 59.94
have an entry (none = KeyError on lookup). -/
def dropFramesPer10MinsDict : FramesPerSec → Option ℕ
  | .fps29_970 => some 18
  | .fps59_940 => some 36
  | _ => none

/-- `DropType` enum. -/
inductive DropType
  | nonDrop
  | drop
  deriving DecidableEq, Repr

/-- `FrameRate`: a fully-specified framerate with FPS and drop type. -/
structure FrameRate where
  fps : FramesPerSec
  dropType : DropType
  deriving DecidableEq, Repr

/-- The validity condition enforced by the `FrameRate` constructor in
timecode.py (it raises unless drop implies a drop-frame standard). -/
def FrameRate.wf (fr : FrameRate) : Prop :=
  fr.dropType = DropType.drop → (dropFramesPer10MinsDict fr.fps).isSome

instance (fr : FrameRate) : Decidable fr.wf := by
  unfold FrameRate.wf; infer_instance

/-- `FrameRate.int_fps`: ceil(frames / per_wall_secs). -/
def FrameRate.intFps (fr : FrameRate) : ℕ :=
  let cfg := frameRatesDict fr.fps
  (cfg.frames + cfg.perWallSecs - 1) / cfg.perWallSecs

/-- `FrameRate.drop_frames_per_10mins`: 0 for non-drop, else the dict entry
(the constructor guarantees the dict lookup succeeds for well-formed rates,
so the `getD 0` default is unreachable for them). -/
def FrameRate.dropFramesPer10Mins (fr : FrameRate) : ℕ :=
  match fr.dropType with
  | DropType.nonDrop => 0
  | DropType.drop => (dropFramesPer10MinsDict fr.fps).getD 0

/-- `_frames_per_dropped_block` in timecode.py. -/
def framesPerDroppedBlock (fr : FrameRate) : ℕ :=
  fr.dropFramesPer10Mins / 9

/-- `Timecode`: numerical timecode value with HH:MM:SS:FF. -/
structure Timecode where
  hh : ℕ
  mm : ℕ
  ss : ℕ
  ff : ℕ
  deriving DecidableEq, Repr

/-- `_tc_to_frame_idx` in timecode.py (result as an integer: Python ints are
unbounded and the drop-frame adjustment subtracts). -/
def tcToFrameIdx (tc : Timecode) (fr : FrameRate) : ℤ :=
  let tcTotalMins : ℕ := 60 * tc.hh + tc.mm
  let tcTotalSecs : ℕ := 60 * tcTotalMins + tc.ss
  let raw : ℕ := fr.intFps * tcTotalSecs + tc.ff
  if 0 < fr.dropFramesPer10Mins then
    let framesDroppedPerHr : ℕ := 6 * fr.dropFramesPer10Mins
    (raw : ℤ) - (tc.hh * framesDroppedPerHr : ℕ)
      - ((tc.mm / 10) * fr.dropFramesPer10Mins : ℕ)
      - ((tc.mm % 10) * framesPerDroppedBlock fr : ℕ)
  else (raw : ℤ)

/-- `_frame_idx_to_wall_secs` in timecode.py (exact-rational model of the
float arithmetic). -/
def frameIdxToWallSecs (frameIdx : ℤ) (fr : FrameRate) : ℚ :=
  let cfg := frameRatesDict fr.fps
  (frameIdx * cfg.perWallSecs : ℚ) / (cfg.frames : ℚ)

/-- `tc_to_wall_secs` in timecode.py. -/
def tcToWallSecs (tc : Timecode) (fr : FrameRate) : ℚ :=
  frameIdxToWallSecs (tcToFrameIdx tc fr) fr

/-- `wall_secs_to_fractional_frame_idx` in timecode.py. -/
def wallSecsToFractionalFrameIdx (wallSecs : ℚ) (fr : FrameRate) : ℚ :=
  let cfg := frameRatesDict fr.fps
  wallSecs * (cfg.frames : ℚ) / (cfg.perWallSecs : ℚ)

/-- `_frames_dropped_before_frame_idx` in timecode.py, for a non-negative
frame index. -/
def framesDroppedBeforeFrameIdx (frameIdx : ℕ) (fr : FrameRate) : ℕ :=
  match fr.dropType with
  | DropType.nonDrop => 0
  | DropType.drop =>
    let framesPerNonDropMin := fr.intFps * 60
    let blockLen := framesPerDroppedBlock fr
    let framesPerDropMin := framesPerNonDropMin - blockLen
    let framesPer10Mins := 10 * framesPerNonDropMin - fr.dropFramesPer10Mins
    let numComplete10MinBlocks := frameIdx / framesPer10Mins
    let framesRemaining := frameIdx - framesPer10Mins * numComplete10MinBlocks
    let numDroppedFrames := numComplete10MinBlocks * fr.dropFramesPer10Mins
    if framesRemaining ≥ framesPerNonDropMin then
      let rem := framesRemaining - framesPerNonDropMin
      let numCompleteDropMins := rem / framesPerDropMin
      numDroppedFrames + (numCompleteDropMins + 1) * blockLen
    else numDroppedFrames

/-- `_frame_idx_to_tc` in timecode.py: raises on negative indexes (modelled
as `none`). -/
def frameIdxToTc (frameIdx : ℤ) (fr : FrameRate) : Option Timecode :=
  if frameIdx < 0 then none
  else
    let framesPerMin := fr.intFps * 60
    let framesPerHr := framesPerMin * 60
    let n := frameIdx.toNat
    let framesRemaining := n + framesDroppedBeforeFrameIdx n fr
    let hh := framesRemaining / framesPerHr
    let rem1 := framesRemaining - hh * framesPerHr
    let mm := rem1 / framesPerMin
    let rem2 := rem1 - mm * framesPerMin
    let ss := rem2 / fr.intFps
    let ff := rem2 - ss * fr.intFps
    some ⟨hh, mm, ss, ff⟩

/-- `wall_secs_to_tc_left` in timecode.py. -/
def wallSecsToTcLeft (wallSecs : ℚ) (fr : FrameRate) : Option Timecode :=
  frameIdxToTc ⌊wallSecsToFractionalFrameIdx wallSecs fr⌋ fr

/-- Validity of a timecode with respect to a frame rate, as in the spec's
round-trip property: mm, ss below 60 and ff below the integer frame rate
(hh unbounded and non-negative). -/
def Timecode.validFor (tc : Timecode) (fr : FrameRate) : Prop :=
  tc.mm < 60 ∧ tc.ss < 60 ∧ tc.ff < fr.intFps

instance (tc : Timecode) (fr : FrameRate) : Decidable (tc.validFor fr) := by
  unfold Timecode.validFor; infer_instance

/-- Whether the timecode names a frame number skipped by the drop-frame
convention: one of the first `framesPerDroppedBlock` frames of the first
second of a minute that is not a multiple of 10. -/
def Timecode.isDroppedFrameName (tc : Timecode) (fr : FrameRate) : Prop :=
  fr.dropType = DropType.drop ∧ tc.mm % 10 ≠ 0 ∧ tc.ss = 0 ∧
    tc.ff < framesPerDroppedBlock fr

instance (tc : Timecode) (fr : FrameRate) :
    Decidable (tc.isDroppedFrameName fr) := by
  unfold Timecode.isDroppedFrameName; infer_instance

/-! ### Frame-rate text parser (timecode.py lines 100-172)

The regex grammar `({_FPS_PATTERN})\s*({_DROP_PATTERN}|{_NON_DROP_PATTERN})?`
with `_FPS_PATTERN = \d\d\.?\d?\d?\d?`, `_DROP_PATTERN = (?:drop|df?)`,
`_NON_DROP_PATTERN = (?:non[-_\s]*drop|ndf?)` is embedded as a direct
recursive matcher.  Because everything after the two mandatory digits is
optional and the alternatives start with non-overlapping characters,
greedy maximal-munch matching in alternation order is exactly the Python
`re` backtracking behaviour for this pattern.  `re.search` tries each start
position left to right; `re.match` anchors at the start only. -/

/-- Python `\s` (ASCII whitespace as used by `str.strip` and `re`). -/
def pyIsSpace (c : Char) : Bool :=
  c = ' ' ∨ c = '\t' ∨ c = '\n' ∨ c = '\r' ∨ c = '\x0b' ∨ c = '\x0c'

/-- The separator class `[-_\s]` of the non-drop qualifier pattern. -/
def isSepChar (c : Char) : Bool :=
  c = '-' ∨ c = '_' ∨ pyIsSpace c

/-- Python `str.strip()`. -/
def pyStrip (cs : List Char) : List Char :=
  ((cs.dropWhile pyIsSpace).reverse.dropWhile pyIsSpace).reverse

/-- Case-insensitive literal match (pattern given lowercase); returns the
rest of the input on success. -/
def matchLit : List Char → List Char → Option (List Char)
  | [], cs => some cs
  | _ :: _, [] => none
  | l :: ls, c :: cs => if c.toLower = l then matchLit ls cs else none

/-- Literal match that also returns the consumed source characters. -/
def tryLit (lit : List Char) (cs : List Char) : Option (List Char × List Char) :=
  (matchLit lit cs).map (fun r => (cs.take lit.length, r))

/-- Greedily take up to `n` leading decimal digits. -/
def takeDigitsUpTo : ℕ → List Char → (List Char × List Char)
  | 0, cs => ([], cs)
  | _ + 1, [] => ([], [])
  | n + 1, c :: cs =>
    if c.isDigit then
      let (ds, r) := takeDigitsUpTo n cs
      (c :: ds, r)
    else ([], c :: cs)

/-- `_FPS_PATTERN = \d\d\.?\d?\d?\d?`: two digits, an optional dot, then up
to three more digits (greedy). -/
def matchFpsToken : List Char → Option (List Char × List Char)
  | c1 :: c2 :: cs =>
    if c1.isDigit ∧ c2.isDigit then
      match cs with
      | '.' :: cs' =>
        let (ds, r) := takeDigitsUpTo 3 cs'
        some (c1 :: c2 :: '.' :: ds, r)
      | _ =>
        let (ds, r) := takeDigitsUpTo 3 cs
        some (c1 :: c2 :: ds, r)
    else none
  | _ => none

/-- `non[-_\s]*drop` (first non-drop alternative). -/
def matchNonSepDrop (cs : List Char) : Option (List Char × List Char) :=
  match matchLit ['n', 'o', 'n'] cs with
  | none => none
  | some r1 =>
    let seps := r1.takeWhile isSepChar
    let r2 := r1.drop seps.length
    match matchLit ['d', 'r', 'o', 'p'] r2 with
    | none => none
    | some r3 => some (cs.take (3 + seps.length + 4), r3)

/-- The optional qualifier group `((?:drop|df?)|(?:non[-_\s]*drop|ndf?))?`
in alternation order; returns the captured characters (empty for no match)
and the rest. -/
def matchQualifier (cs : List Char) : List Char × List Char :=
  match tryLit ['d', 'r', 'o', 'p'] cs with
  | some (m, r) => (m, r)
  | none =>
  match tryLit ['d', 'f'] cs with
  | some (m, r) => (m, r)
  | none =>
  match tryLit ['d'] cs with
  | some (m, r) => (m, r)
  | none =>
  match matchNonSepDrop cs with
  | some (m, r) => (m, r)
  | none =>
  match tryLit ['n', 'd', 'f'] cs with
  | some (m, r) => (m, r)
  | none =>
  match tryLit ['n', 'd'] cs with
  | some (m, r) => (m, r)
  | none => ([], cs)

/-- One attempt of `_FRAMERATE_PATTERN` anchored at the head of the input
(the semantics of `re.match`): returns groups [1] (FPS) and [2] (qualifier,
empty when absent). -/
def matchFramerateAt (cs : List Char) : Option (List Char × List Char) :=
  (matchFpsToken cs).map (fun p =>
    let rest := p.2.dropWhile pyIsSpace
    (p.1, (matchQualifier rest).1))

/-- `re.search`: try every start position left to right. -/
def searchFramerate : List Char → Option (List Char × List Char)
  | [] => none
  | c :: cs =>
    match matchFramerateAt (c :: cs) with
    | some x => some x
    | none => searchFramerate cs

/-- Numeric value of a digit character. -/
def digitVal (c : Char) : ℕ := c.toNat - 48

def digitsVal (cs : List Char) : ℕ :=
  cs.foldl (fun a c => 10 * a + digitVal c) 0

/-- The value of `float(fps_str)` as an exact decimal
`mantissa / 10 ^ scale`; for the 2-digit-dot-3-digit tokens the grammar
produces, equality with a small integer is exact in both models. -/
structure DecimalVal where
  mantissa : ℕ
  scale : ℕ
  deriving DecidableEq, Repr

def fpsDecimal (tok : List Char) : DecimalVal :=
  let ip := tok.takeWhile Char.isDigit
  let rest := tok.drop ip.length
  let fp := match rest with
    | '.' :: ds => ds
    | _ => []
  ⟨digitsVal (ip ++ fp), fp.length⟩

/-- `float(fps_str) == n` for a natural n. -/
def DecimalVal.eqNat (d : DecimalVal) (n : ℕ) : Bool :=
  d.mantissa = n * 10 ^ d.scale

/-- The distinct failure kinds raised by `parse_framerate_within` and the
`FrameRate` constructor. -/
inductive ParseErr
  | unsupportedFps
  | ambiguousDropType
  | invalidDropCombination
  deriving DecidableEq, Repr

/-- The `elif` chain classifying `fps_str` (timecode.py lines 126-148). -/
def classifyFps (tok : List Char) : Except ParseErr FramesPerSec :=
  if tok = "23.976".toList ∨ tok = "23.98".toList then .ok .fps23_976
  else if (fpsDecimal tok).eqNat 24 then .ok .fps24_000
  else if (fpsDecimal tok).eqNat 25 then .ok .fps25_000
  else if tok = "29.970".toList ∨ tok = "29.97".toList then .ok .fps29_970
  else if (fpsDecimal tok).eqNat 30 then .ok .fps30_000
  else if tok = "47.952".toList ∨ tok = "47.95".toList then .ok .fps47_952
  else if (fpsDecimal tok).eqNat 48 then .ok .fps48_000
  else if (fpsDecimal tok).eqNat 50 then .ok .fps50_000
  else if tok = "59.940".toList ∨ tok = "59.94".toList then .ok .fps59_940
  else if (fpsDecimal tok).eqNat 60 then .ok .fps60_000
  else .error .unsupportedFps

/-- The `FrameRate` constructor (raises unless drop implies a drop-frame
standard). -/
def mkFrameRate (fps : FramesPerSec) (dt : DropType) : Option FrameRate :=
  match dt with
  | .drop => if (dropFramesPer10MinsDict fps).isSome then some ⟨fps, dt⟩ else none
  | .nonDrop => some ⟨fps, dt⟩

/-- One ambiguity warning printed by the parser (the interpolated values of
the warning text). -/
structure AmbiguityWarning where
  fpsStr : List Char
  fps : FramesPerSec
  deriving DecidableEq, Repr

/-- `re.match(_DROP_PATTERN, drop_type_str, IGNORECASE)` succeeds exactly
when the captured qualifier starts with d/D (the single-letter `d`
alternative). -/
def matchesDropPat (cs : List Char) : Bool :=
  match cs with
  | c :: _ => c.toLower = 'd'
  | [] => false

inductive FrameRateMatchLevel
  | searchWithin
  | requireFullMatch
  deriving DecidableEq, Repr

/-- Result of `parse_framerate_within`: Python returns `None` on no regex
match, raises on invalid rates, and otherwise returns the `FrameRate`. -/
inductive ParseOutcome
  | noFramerateFound
  | parseFailure (e : ParseErr)
  | parsed (fr : FrameRate)
  deriving DecidableEq, Repr

/-- `parse_framerate_within` in timecode.py.  The second component is the
log of ambiguity warnings the function prints (the Python return value
itself carries no ambiguity information).  When the function raises after
printing (impossible for the ambiguity check, whose rates are disjoint from
the warning rates, but possible for the constructor check, e.g. "24 drop"),
only the outcome is reported. -/
def parseFramerateWithin (s : String)
    (level : FrameRateMatchLevel := .searchWithin) :
    ParseOutcome × List AmbiguityWarning :=
  let m := match level with
    | .searchWithin => searchFramerate s.toList
    | .requireFullMatch => matchFramerateAt (pyStrip s.toList)
  match m with
  | none => (.noFramerateFound, [])
  | some (fpsStr, dropStr) =>
    match classifyFps fpsStr with
    | .error e => (.parseFailure e, [])
    | .ok fps =>
      let decimalDigits := fpsStr.length - 3
      let warnings : List AmbiguityWarning :=
        if decimalDigits = 0 ∧ (fps = .fps24_000 ∨ fps = .fps30_000
            ∨ fps = .fps48_000 ∨ fps = .fps60_000) then
          [⟨fpsStr, fps⟩]
        else []
      let dropType := if matchesDropPat dropStr then DropType.drop
        else DropType.nonDrop
      if dropStr.length = 0 ∧ (fps = .fps29_970 ∨ fps = .fps59_940) then
        (.parseFailure .ambiguousDropType, warnings)
      else
        match mkFrameRate fps dropType with
        | none => (.parseFailure .invalidDropCombination, warnings)
        | some fr => (.parsed fr, warnings)

/-- Python `f"{n:02}"` zero-padding to two digits for a natural number. -/
def pad2 (n : ℕ) : String :=
  if n < 10 then "0" ++ Nat.repr n else Nat.repr n

/-- `wall_secs_to_durstr` in timecode.py (exact-rational model; the
`math.isfinite` guard is vacuous for rationals).  `secs0` is
`math.floor(wall_secs + 0.5)` which is non-negative because the sign was
already stripped, so it is kept as a natural number. -/
def wallSecsToDurstr (wallSecs : ℚ) : String :=
  let w : ℚ := if wallSecs < 0 then -wallSecs else wallSecs
  let secs0 : ℕ := (⌊w + 1/2⌋).toNat
  let out0 : String := if wallSecs < 0 ∧ secs0 ≠ 0 then "(-) " else ""
  let hh : ℕ := secs0 / 3600
  let secs1 : ℕ := secs0 - 3600 * hh
  let mm : ℕ := secs1 / 60
  let ss : ℕ := secs1 - 60 * mm
  let out1 : String := if 0 < hh then out0 ++ Nat.repr hh ++ "h " else out0
  let out2 : String :=
    if 0 < hh ∨ 0 < mm then
      out1 ++ (if 0 < hh then pad2 mm else Nat.repr mm) ++ "m "
    else out1
  out2 ++ pad2 ss ++ "s"

/-! ### Data model (data.py) and per-file checks (check.py)

Python floats are exact rationals here; statements that can raise are
modelled with `Except` carrying the exception kind (`ZeroDivisionError`
from `duration_secs` / `bwf_start_time_secs`, `AttributeError` from reading
a BWF field the reader never populated, the negative-frame-index exception
from `_frame_idx_to_tc`, and the `sys.exit` on an empty input set). -/

/-- `WavFileCheck` enum in data.py. -/
inductive WavFileCheck
  | nonstandardFormat
  | lowBitDepth
  | lowSampleRate
  | veryShortDuration
  | missingBwf
  | startsAtTimeZero
  | fractionalFrameStartTc
  | missingUmid
  | unnaturallyLoud
  | filenameTcMismatch
  deriving DecidableEq, Repr

/-- `CrossFileCheck` enum in data.py. -/
inductive CrossFileCheck
  | multipleBitDepths
  | multipleSampleRates
  | nonUniqueUmids
  deriving DecidableEq, Repr

def WAVE_FORMAT_PCM : ℕ := 0x0001
def WAVE_FORMAT_MPEG : ℕ := 0x0050
def WAVE_FORMAT_EXTENSIBLE : ℕ := 0xFFFE

/-- The canonical PCM subformat GUID bytes. -/
def KSDATAFORMAT_SUBTYPE_PCM : List ℕ :=
  [0x01, 0x00, 0x00, 0x00, 0x00, 0x00, 0x10, 0x00,
   0x80, 0x00, 0x00, 0xAA, 0x00, 0x38, 0x9B, 0x71]

/-- `FmtMetadata` in data.py (`ext_sub_format` is empty bytes unless the
file is WAVE_FORMAT_EXTENSIBLE). -/
structure FmtMetadata where
  formatTag : ℕ
  numChans : ℕ
  bitDepth : ℕ
  sampleRateHz : ℕ
  extSubFormat : List ℕ
  deriving DecidableEq, Repr

/-- `BwfMetadata` in data.py.  The version-gated fields are `Option`s:
the reader (`_read_bwf_metadata`) populates `umid` only for version ≥ 1 and
the five loudness fields only for version ≥ 2; accessing an unpopulated
attribute raises `AttributeError` in Python. -/
structure BwfMetadata where
  description : String
  originator : String
  originatorReference : String
  originationDate : String
  originationTime : String
  samplesSinceOrigin : ℕ
  version : ℕ
  codingHistory : String
  umid : Option (List ℕ)
  integratedLufs : Option ℚ
  loudnessRangeLu : Option ℚ
  maxDbtp : Option ℚ
  maxMomentaryLufs : Option ℚ
  maxShortTermLufs : Option ℚ
  deriving DecidableEq, Repr

/-- `TcConfidence` in data.py. -/
inductive TcConfidence
  | implicitNumbersOnly
  | explicitTcPrefix
  deriving DecidableEq, Repr

/-- `FilenameTimecode` in data.py. -/
structure FilenameTimecode where
  tc : Timecode
  confidence : TcConfidence
  deriving DecidableEq, Repr

/-- `WavMetadata` in data.py. -/
structure WavMetadata where
  path : String
  fmtData : FmtMetadata
  bwfData : Option BwfMetadata
  dataSizeBytes : ℕ
  tcInFilename : Option FilenameTimecode
  deriving DecidableEq, Repr

/-- Exception kinds of the checking phase. -/
inductive CheckErr
  | zeroDivision
  | attributeAbsent
  | negativeFrameIdx
  | noWavFiles
  deriving DecidableEq, Repr

/-- `WavMetadata.duration_secs`: `data_size // (num_chans * bit_depth / 8)`
then divided by the sample rate; either division raises
`ZeroDivisionError` when its divisor is zero. -/
def WavMetadata.durationSecs (m : WavMetadata) : Except CheckErr ℚ :=
  let frameSizeBytes : ℚ := (m.fmtData.numChans : ℚ) * ((m.fmtData.bitDepth : ℚ) / 8)
  if frameSizeBytes = 0 then .error .zeroDivision
  else
    let numFrames : ℤ := ⌊(m.dataSizeBytes : ℚ) / frameSizeBytes⌋
    if (m.fmtData.sampleRateHz : ℚ) = 0 then .error .zeroDivision
    else .ok ((numFrames : ℚ) / (m.fmtData.sampleRateHz : ℚ))

/-- `WavMetadata.bwf_start_time_secs` (the caller has already established
that BWF data is present). -/
def WavMetadata.bwfStartTimeSecs (m : WavMetadata) (bwf : BwfMetadata) :
    Except CheckErr ℚ :=
  if (m.fmtData.sampleRateHz : ℚ) = 0 then .error .zeroDivision
  else .ok ((bwf.samplesSinceOrigin : ℚ) / (m.fmtData.sampleRateHz : ℚ))

/-- `_is_all_zeros` in check.py. -/
def isAllZeros (data : List ℕ) : Bool := data.all (· = 0)

/-- The four basic WAV metadata checks at the top of `_check_wav_file`, in
evaluation order. -/
def fmtChecks (fmt : FmtMetadata) (dur : ℚ) : List WavFileCheck :=
  (((if fmt.formatTag = WAVE_FORMAT_EXTENSIBLE then
      (if fmt.extSubFormat ≠ KSDATAFORMAT_SUBTYPE_PCM
        then [.nonstandardFormat] else [])
    else if fmt.formatTag ≠ WAVE_FORMAT_PCM then [.nonstandardFormat] else [])
    ++ (if fmt.bitDepth < 16 then [.lowBitDepth] else []))
    ++ (if fmt.sampleRateHz < 44100 then [.lowSampleRate] else []))
    ++ (if dur < 1 then [.veryShortDuration] else [])

/-- The `bwf_data.version == 0 or _is_all_zeros(bwf_data.umid)` test, with
Python `or` short-circuit (the umid attribute is only read when the version
is non-zero). -/
def missingUmidTest (bwf : BwfMetadata) : Except CheckErr Bool :=
  if bwf.version = 0 then .ok true
  else match bwf.umid with
    | none => .error .attributeAbsent
    | some u => .ok (isAllZeros u)

/-- The version-2 loudness disjunction of `_check_wav_file`, with Python
`or` short-circuit: each attribute is read only if every earlier disjunct
was false. -/
def loudnessTest (bwf : BwfMetadata) : Except CheckErr Bool :=
  match bwf.maxDbtp with
  | none => .error .attributeAbsent
  | some maxDbtp =>
  if maxDbtp ≥ -(3/10 : ℚ) then .ok true
  else
    match bwf.maxMomentaryLufs with
    | none => .error .attributeAbsent
    | some mml =>
    if mml ≥ -3 then .ok true
    else
      match bwf.maxShortTermLufs with
      | none => .error .attributeAbsent
      | some mstl =>
      if mstl ≥ -6 then .ok true
      else
        match bwf.integratedLufs with
        | none => .error .attributeAbsent
        | some il => .ok (il ≥ -9)

/-- The Broadcast Wave Format section of `_check_wav_file` (everything
after the missing-BWF early return), in evaluation order. -/
def bwfChecks (frameRate : FrameRate) (m : WavMetadata) (bwf : BwfMetadata) :
    Except CheckErr (List WavFileCheck) :=
  let c5 : List WavFileCheck :=
    if bwf.samplesSinceOrigin = 0 then [.startsAtTimeZero] else []
  match m.bwfStartTimeSecs bwf with
  | .error e => .error e
  | .ok startSecs =>
  match wallSecsToTcLeft startSecs frameRate with
  | none => .error .negativeFrameIdx
  | some bwfTc =>
  let fracFrames : ℚ := wallSecsToFractionalFrameIdx startSecs frameRate
      - ⌊wallSecsToFractionalFrameIdx startSecs frameRate⌋
  let c6 := c5 ++ (if fracFrames > 1/100 then [.fractionalFrameStartTc] else [])
  match missingUmidTest bwf with
  | .error e => .error e
  | .ok missUmid =>
  let c7 := c6 ++ (if missUmid then [.missingUmid] else [])
  let c8 := c7 ++ (match m.tcInFilename with
    | some ftc => if ftc.tc ≠ bwfTc then [.filenameTcMismatch] else []
    | none => [])
  if bwf.version < 2 then .ok c8
  else
    match loudnessTest bwf with
    | .error e => .error e
    | .ok loud => .ok (c8 ++ (if loud then [.unnaturallyLoud] else []))

/-- `_check_wav_file` in check.py: the basic metadata checks, then either
the missing-BWF early return or the BWF checks. -/
def checkWavFile (frameRate : FrameRate) (m : WavMetadata) :
    Except CheckErr (List WavFileCheck) :=
  match m.durationSecs with
  | .error e => .error e
  | .ok dur =>
  let c4 := fmtChecks m.fmtData dur
  match m.bwfData with
  | none => .ok (c4 ++ [.missingBwf])
  | some bwf =>
    match bwfChecks frameRate m bwf with
    | .error e => .error e
    | .ok cs => .ok (c4 ++ cs)

/-- The invariant `_read_bwf_metadata` establishes: fields are populated
exactly as far as the version declares. -/
def BwfMetadata.wf (b : BwfMetadata) : Prop :=
  (1 ≤ b.version → b.umid.isSome)
  ∧ (2 ≤ b.version → b.integratedLufs.isSome ∧ b.loudnessRangeLu.isSome
      ∧ b.maxDbtp.isSome ∧ b.maxMomentaryLufs.isSome
      ∧ b.maxShortTermLufs.isSome)

instance (b : BwfMetadata) : Decidable b.wf := by
  unfold BwfMetadata.wf; infer_instance

/-! Concrete instances used to witness the check-engine theorems. -/

/-- A standard-format file with no bext chunk. -/
def mNoBwfW : WavMetadata := ⟨"w.wav", ⟨1, 2, 24, 48000, []⟩, none, 0, none⟩

/-- A version-1 BWF record starting at time zero with an all-zero UMID and
no loudness fields. -/
def bwf1W : BwfMetadata :=
  ⟨"", "", "", "", "", 0, 1, "", some (List.replicate 64 0),
   none, none, none, none, none⟩

/-- A standard-format file carrying `bwf1W`. -/
def mBwf1W : WavMetadata := ⟨"x.wav", ⟨1, 2, 24, 48000, []⟩, some bwf1W, 0, none⟩

/-! ### Internal state (data.py), cleanup pass (read.py) and cross-file
checks (check.py / report.py).  The Python dict keyed by filename with
insertion order is an association list. -/

/-- `WavFileState` in data.py. -/
structure WavFileState where
  metadata : WavMetadata
  failedChecks : List WavFileCheck
  deriving DecidableEq, Repr

/-- `InternalState.wav_files`: insertion-ordered filename → state map. -/
abbrev InternalState := List (String × WavFileState)

/-- The `found_any_explicit` loop of `_clean_up_filename_tcs`. -/
def anyExplicitTc (st : InternalState) : Bool :=
  st.any (fun p =>
    match p.2.metadata.tcInFilename with
    | some ftc =>
      match ftc.confidence with
      | TcConfidence.explicitTcPrefix => true
      | TcConfidence.implicitNumbersOnly => false
    | none => false)

/-- Whether an optional filename timecode has implicit confidence. -/
def isImplicitTc : Option FilenameTimecode → Bool
  | some ftc =>
    match ftc.confidence with
    | TcConfidence.implicitNumbersOnly => true
    | TcConfidence.explicitTcPrefix => false
  | none => false

/-- `_clean_up_filename_tcs` in read.py: when any explicit TC-prefixed
filename timecode exists, clear every implicit one. -/
def cleanUpFilenameTcs (st : InternalState) : InternalState :=
  if anyExplicitTc st then
    st.map (fun p =>
      if isImplicitTc p.2.metadata.tcInFilename then
        (p.1, ⟨{ p.2.metadata with tcInFilename := none }, p.2.failedChecks⟩)
      else p)
  else st

/-- A byte rendered as two uppercase hex digits. -/
def hexDigitChar (k : ℕ) : Char :=
  if k < 10 then Char.ofNat (48 + k) else Char.ofNat (55 + k)

/-- `bytes.hex().upper()` as used for `umid_hex`. -/
def umidHexOf (bytes : List ℕ) : String :=
  String.mk (bytes.foldr
    (fun b acc => hexDigitChar (b / 16) :: hexDigitChar (b % 16) :: acc) [])

/-- The per-file condition of the UMID counter loop in `check_wav_files`:
count `umid_hex` only when BWF data is present and the file did not trigger
Missing UMID (`and` short-circuits, so `umid_hex` is only read then). -/
def umidKeyOf (p : String × WavFileState) : Except CheckErr (Option String) :=
  match p.2.metadata.bwfData with
  | none => .ok none
  | some bwf =>
    if WavFileCheck.missingUmid ∈ p.2.failedChecks then .ok none
    else
      match bwf.umid with
      | none => .error .attributeAbsent
      | some u => .ok (some (umidHexOf u))

/-- The multiset of counted UMID keys, in file order. -/
def umidKeys : InternalState → Except CheckErr (List String)
  | [] => .ok []
  | p :: rest =>
    match umidKeyOf p with
    | .error e => .error e
    | .ok o =>
      match umidKeys rest with
      | .error e => .error e
      | .ok ks =>
        .ok (match o with
          | some k => k :: ks
          | none => ks)

/-- `for umid in umid_counts: if umid_counts[umid] >= 2: append; break`. -/
def umidTrigger (keys : List String) : Bool :=
  keys.any (fun u => 2 ≤ keys.count u)

/-- The per-file phase of `check_wav_files`: run `_check_wav_file` on each
file in order, appending its triggered checks to that file's
`failed_checks`; the first exception aborts the run. -/
def runPerFile (fr : FrameRate) : InternalState → Except CheckErr InternalState
  | [] => .ok []
  | p :: rest =>
    match checkWavFile fr p.2.metadata with
    | .error e => .error e
    | .ok cs =>
      match runPerFile fr rest with
      | .error e => .error e
      | .ok rest' => .ok ((p.1, ⟨p.2.metadata, p.2.failedChecks ++ cs⟩) :: rest')

/-- `check_wav_files` in check.py: exits on an empty input set, runs the
per-file checks, then appends the cross-file checks (set cardinalities for
bit depths and sample rates; duplicate count for UMIDs). -/
def checkWavFiles (fr : FrameRate) (st : InternalState) :
    Except CheckErr (InternalState × List CrossFileCheck) :=
  if st.isEmpty then .error .noWavFiles
  else
    match runPerFile fr st with
    | .error e => .error e
    | .ok checked =>
      let bitDepths := (checked.map (fun p => p.2.metadata.fmtData.bitDepth)).dedup
      let sampleRates :=
        (checked.map (fun p => p.2.metadata.fmtData.sampleRateHz)).dedup
      match umidKeys checked with
      | .error e => .error e
      | .ok keys =>
        let cross :=
          (if 2 ≤ bitDepths.length then [CrossFileCheck.multipleBitDepths] else [])
          ++ (if 2 ≤ sampleRates.length
              then [CrossFileCheck.multipleSampleRates] else [])
          ++ (if umidTrigger keys then [CrossFileCheck.nonUniqueUmids] else [])
        .ok (checked, cross)

/-- The (key, filename) pair the report's `_print_cross_check` inserts into
its defaultdict for one file: every file with BWF data and version ≥ 1 is
included, with no exclusion of files that triggered Missing UMID. -/
def reportKey (p : String × WavFileState) : Option (String × String) :=
  match p.2.metadata.bwfData with
  | some bwf =>
    if 1 ≤ bwf.version then
      match bwf.umid with
      | some u => some (umidHexOf u, p.1)
      | none => none
    else none
  | none => none

def reportPairs (st : InternalState) : List (String × String) :=
  st.filterMap reportKey

/-- The distinct keys in first-insertion order (defaultdict iteration
order). -/
def keysInOrder (pairs : List (String × String)) : List String :=
  pairs.foldl (fun acc kv => if kv.1 ∈ acc then acc else acc ++ [kv.1]) []

/-- The groups of filenames printed by the NON_UNIQUE_UMIDS branch of
`_print_cross_check` in report.py: for each UMID value, the files carrying
it (among files with BWF version ≥ 1), kept when the group has ≥ 2
members. -/
def reportNonUniqueUmidListing (st : InternalState) : List (List String) :=
  (keysInOrder (reportPairs st)).filterMap (fun k =>
    let g := (reportPairs st).filterMap
      (fun kv => if kv.1 = k then some kv.2 else none)
    if 2 ≤ g.length then some g else none)

/-! Concrete four-file state used for the cross-file counterexample: two
files share a non-zero UMID, two other files share the all-zero UMID (both
flagged Missing UMID). -/

def fmtW : FmtMetadata := ⟨1, 2, 24, 48000, []⟩

/-- A version-1 BWF record whose two umid bytes are `b`. -/
def bwfU (b : ℕ) : BwfMetadata :=
  ⟨"", "", "", "", "", 48000, 1, "", some [b, b],
   none, none, none, none, none⟩

def mU (name : String) (b : ℕ) : WavMetadata :=
  ⟨name, fmtW, some (bwfU b), 0, none⟩

def st4 : InternalState :=
  [("a.wav", ⟨mU "a.wav" 1, []⟩), ("b.wav", ⟨mU "b.wav" 1, []⟩),
   ("c.wav", ⟨mU "c.wav" 0, []⟩), ("d.wav", ⟨mU "d.wav" 0, []⟩)]

/-- Pure view of `umidKeyOf`: the UMID grouping key when the error branch
(which `check_wav_files` never reaches after a successful per-file pass)
is ignored. -/
def umidKeyPure (p : String × WavFileState) : Option String :=
  match umidKeyOf p with
  | .ok o => o
  | .error _ => none

/-- The per-file output of the check engine on `st4` (established below in
`runPerFile_st4`). -/
def checked4 : InternalState :=
  [("a.wav", ⟨mU "a.wav" 1, [.veryShortDuration]⟩),
   ("b.wav", ⟨mU "b.wav" 1, [.veryShortDuration]⟩),
   ("c.wav", ⟨mU "c.wav" 0, [.veryShortDuration, .missingUmid]⟩),
   ("d.wav", ⟨mU "d.wav" 0, [.veryShortDuration, .missingUmid]⟩)]

/-! ## Theorems -/

/-- All frame counts in the rates table are positive. -/
theorem frames_pos (fps : FramesPerSec) : 0 < (frameRatesDict fps).frames := by
  cases fps <;> norm_num [frameRatesDict]

/-- All period denominators in the rates table are positive. -/
theorem perWallSecs_pos (fps : FramesPerSec) :
    0 < (frameRatesDict fps).perWallSecs := by
  cases fps <;> norm_num [frameRatesDict]

/-- Converting a frame index to wall seconds and back to a fractional frame
index is the identity (exact rational arithmetic). -/
theorem fracIdx_of_frameIdx (fr : FrameRate) (i : ℤ) :
    wallSecsToFractionalFrameIdx (frameIdxToWallSecs i fr) fr = (i : ℚ) := by
  unfold wallSecsToFractionalFrameIdx frameIdxToWallSecs
  have h1 : ((frameRatesDict fr.fps).frames : ℚ) ≠ 0 := by
    exact_mod_cast (frames_pos fr.fps).ne'
  have h2 : ((frameRatesDict fr.fps).perWallSecs : ℚ) ≠ 0 := by
    exact_mod_cast (perWallSecs_pos fr.fps).ne'
  field_simp

theorem sub_div_mul_eq_mod (R m : ℕ) : R - R / m * m = R % m := by
  rw [Nat.mod_def, Nat.mul_comm]

theorem framesDropped_nonDrop (fps : FramesPerSec) (n : ℕ) :
    framesDroppedBeforeFrameIdx n ⟨fps, .nonDrop⟩ = 0 := rfl

/-- Closed form of `frameIdxToTc` on a non-negative index, with the
remainders written with `%`. -/
theorem frameIdxToTc_of_nonneg (fr : FrameRate) (i : ℤ) (h : ¬ i < 0) :
    frameIdxToTc i fr =
      some ⟨(i.toNat + framesDroppedBeforeFrameIdx i.toNat fr) / (fr.intFps * 60 * 60),
            (i.toNat + framesDroppedBeforeFrameIdx i.toNat fr) % (fr.intFps * 60 * 60)
              / (fr.intFps * 60),
            (i.toNat + framesDroppedBeforeFrameIdx i.toNat fr) % (fr.intFps * 60 * 60)
              % (fr.intFps * 60) / fr.intFps,
            (i.toNat + framesDroppedBeforeFrameIdx i.toNat fr) % (fr.intFps * 60 * 60)
              % (fr.intFps * 60) % fr.intFps⟩ := by
  simp only [frameIdxToTc, if_neg h, sub_div_mul_eq_mod]

/-- Closed form of the dropped-frame count at 29.97 drop. -/
theorem dropped_2997 (n : ℕ) :
    framesDroppedBeforeFrameIdx n ⟨.fps29_970, .drop⟩ =
      (n / 17982) * 18 +
        (if n % 17982 ≥ 1800 then ((n % 17982 - 1800) / 1798 + 1) * 2 else 0) := by
  norm_num [framesDroppedBeforeFrameIdx, FrameRate.intFps,
    FrameRate.dropFramesPer10Mins, framesPerDroppedBlock, frameRatesDict,
    dropFramesPer10MinsDict, Option.getD]
  rw [← Nat.mod_def]
  split <;> omega

/-- Closed form of the dropped-frame count at 59.94 drop. -/
theorem dropped_5994 (n : ℕ) :
    framesDroppedBeforeFrameIdx n ⟨.fps59_940, .drop⟩ =
      (n / 35964) * 36 +
        (if n % 35964 ≥ 3600 then ((n % 35964 - 3600) / 3596 + 1) * 4 else 0) := by
  norm_num [framesDroppedBeforeFrameIdx, FrameRate.intFps,
    FrameRate.dropFramesPer10Mins, framesPerDroppedBlock, frameRatesDict,
    dropFramesPer10MinsDict, Option.getD]
  rw [← Nat.mod_def]
  split <;> omega

/-- Closed form of `tcToFrameIdx` at 29.97 drop (the drop-frame adjustment
never underflows, so natural subtraction agrees). -/
theorem tcToFrameIdx_2997d (hh mm ss ff : ℕ) :
    tcToFrameIdx ⟨hh, mm, ss, ff⟩ ⟨.fps29_970, .drop⟩ =
      ((30 * (60 * (60 * hh + mm) + ss) + ff
          - hh * 108 - mm / 10 * 18 - mm % 10 * 2 : ℕ) : ℤ) := by
  norm_num [tcToFrameIdx, FrameRate.intFps, FrameRate.dropFramesPer10Mins,
    framesPerDroppedBlock, frameRatesDict, dropFramesPer10MinsDict, Option.getD]
  omega

/-- Closed form of `tcToFrameIdx` at 59.94 drop. -/
theorem tcToFrameIdx_5994d (hh mm ss ff : ℕ) :
    tcToFrameIdx ⟨hh, mm, ss, ff⟩ ⟨.fps59_940, .drop⟩ =
      ((60 * (60 * (60 * hh + mm) + ss) + ff
          - hh * 216 - mm / 10 * 36 - mm % 10 * 4 : ℕ) : ℤ) := by
  norm_num [tcToFrameIdx, FrameRate.intFps, FrameRate.dropFramesPer10Mins,
    framesPerDroppedBlock, frameRatesDict, dropFramesPer10MinsDict, Option.getD]
  omega

/-- Closed form of `tcToFrameIdx` for the non-drop rates. -/
theorem tcToFrameIdx_nonDrop (fps : FramesPerSec) (hh mm ss ff : ℕ) :
    tcToFrameIdx ⟨hh, mm, ss, ff⟩ ⟨fps, .nonDrop⟩ =
      (((⟨fps, .nonDrop⟩ : FrameRate).intFps * (60 * (60 * hh + mm) + ss) + ff : ℕ) : ℤ) := by
  simp only [tcToFrameIdx, FrameRate.dropFramesPer10Mins]
  norm_num

/-- Frame-index round trip for every non-drop frame rate. -/
theorem roundtrip_nd (fps : FramesPerSec) (hh mm ss ff : ℕ)
    (mmlt : mm < 60) (sslt : ss < 60)
    (fflt : ff < (⟨fps, .nonDrop⟩ : FrameRate).intFps) :
    frameIdxToTc (tcToFrameIdx ⟨hh, mm, ss, ff⟩ ⟨fps, .nonDrop⟩)
      ⟨fps, .nonDrop⟩ = some ⟨hh, mm, ss, ff⟩ := by
  cases fps <;>
    (rw [tcToFrameIdx_nonDrop]
     rw [frameIdxToTc_of_nonneg _ _ (by omega)]
     simp only [Int.toNat_natCast, framesDropped_nonDrop, Option.some.injEq,
       Timecode.mk.injEq]
     norm_num [FrameRate.intFps, frameRatesDict] at fflt ⊢
     omega)

/-- Frame-index round trip at 29.97 drop, away from dropped frame names. -/
theorem roundtrip_2997d (hh mm ss ff : ℕ)
    (mmlt : mm < 60) (sslt : ss < 60) (fflt : ff < 30)
    (hnd : ¬ (mm % 10 ≠ 0 ∧ ss = 0 ∧ ff < 2)) :
    frameIdxToTc (tcToFrameIdx ⟨hh, mm, ss, ff⟩ ⟨.fps29_970, .drop⟩)
      ⟨.fps29_970, .drop⟩ = some ⟨hh, mm, ss, ff⟩ := by
  rw [tcToFrameIdx_2997d]
  rw [frameIdxToTc_of_nonneg _ _ (by omega)]
  simp only [Int.toNat_natCast]
  rw [dropped_2997]
  set n := 30 * (60 * (60 * hh + mm) + ss) + ff
      - hh * 108 - mm / 10 * 18 - mm % 10 * 2 with hn
  have hA : n + ((n / 17982) * 18
        + (if n % 17982 ≥ 1800 then ((n % 17982 - 1800) / 1798 + 1) * 2 else 0))
      = 108000 * hh + 1800 * mm + 30 * ss + ff := by
    have hB : n / 17982 = 6 * hh + mm / 10 := by omega
    have hr : n % 17982 = mm % 10 * 1798 + 30 * ss + ff := by omega
    split <;> omega
  rw [hA]
  simp only [Option.some.injEq, Timecode.mk.injEq]
  norm_num [FrameRate.intFps, frameRatesDict]
  omega

/-- Frame-index round trip at 59.94 drop, away from dropped frame names. -/
theorem roundtrip_5994d (hh mm ss ff : ℕ)
    (mmlt : mm < 60) (sslt : ss < 60) (fflt : ff < 60)
    (hnd : ¬ (mm % 10 ≠ 0 ∧ ss = 0 ∧ ff < 4)) :
    frameIdxToTc (tcToFrameIdx ⟨hh, mm, ss, ff⟩ ⟨.fps59_940, .drop⟩)
      ⟨.fps59_940, .drop⟩ = some ⟨hh, mm, ss, ff⟩ := by
  rw [tcToFrameIdx_5994d]
  rw [frameIdxToTc_of_nonneg _ _ (by omega)]
  simp only [Int.toNat_natCast]
  rw [dropped_5994]
  set n := 60 * (60 * (60 * hh + mm) + ss) + ff
      - hh * 216 - mm / 10 * 36 - mm % 10 * 4 with hn
  have hA : n + ((n / 35964) * 36
        + (if n % 35964 ≥ 3600 then ((n % 35964 - 3600) / 3596 + 1) * 4 else 0))
      = 216000 * hh + 3600 * mm + 60 * ss + ff := by
    have hB : n / 35964 = 6 * hh + mm / 10 := by omega
    have hr : n % 35964 = mm % 10 * 3596 + 60 * ss + ff := by omega
    split <;> omega
  rw [hA]
  simp only [Option.some.injEq, Timecode.mk.injEq]
  norm_num [FrameRate.intFps, frameRatesDict]
  omega

/-- C1: for every supported frame rate (all 10 FPS values, drop only for
29.97/59.94) and every timecode tc with mm < 60, ss < 60,
ff < int_fps(rate), and (for drop rates) tc not naming a dropped frame
number, `wall_secs_to_tc_left (tc_to_wall_secs tc rate) rate` returns a
timecode equal to tc. -/
theorem C1_tc_roundtrip (fr : FrameRate) (tc : Timecode)
    (hwf : fr.wf) (hv : tc.validFor fr) (hnd : ¬ tc.isDroppedFrameName fr) :
    wallSecsToTcLeft (tcToWallSecs tc fr) fr = some tc := by
  obtain ⟨mmlt, sslt, fflt⟩ := hv
  unfold wallSecsToTcLeft tcToWallSecs
  rw [fracIdx_of_frameIdx, Int.floor_intCast]
  obtain ⟨fps, dt⟩ := fr
  obtain ⟨hh, mm, ss, ff⟩ := tc
  cases dt
  case nonDrop => exact roundtrip_nd fps hh mm ss ff mmlt sslt fflt
  case drop =>
    cases fps
    case fps29_970 =>
      refine roundtrip_2997d hh mm ss ff mmlt sslt ?_ ?_
      · norm_num [FrameRate.intFps, frameRatesDict] at fflt
        exact fflt
      · simp only [Timecode.isDroppedFrameName, framesPerDroppedBlock,
          FrameRate.dropFramesPer10Mins, dropFramesPer10MinsDict,
          Option.getD] at hnd
        simpa using hnd
    case fps59_940 =>
      refine roundtrip_5994d hh mm ss ff mmlt sslt ?_ ?_
      · norm_num [FrameRate.intFps, frameRatesDict] at fflt
        exact fflt
      · simp only [Timecode.isDroppedFrameName, framesPerDroppedBlock,
          FrameRate.dropFramesPer10Mins, dropFramesPer10MinsDict,
          Option.getD] at hnd
        simpa using hnd
    all_goals exact absurd (hwf rfl) (by simp [dropFramesPer10MinsDict])

/-- C1 witness: the round trip applied at 01:23:45:10 under 29.97 drop. -/
theorem C1_tc_roundtrip_witness :
    wallSecsToTcLeft
        (tcToWallSecs ⟨1, 23, 45, 10⟩ ⟨.fps29_970, .drop⟩)
        ⟨.fps29_970, .drop⟩ = some ⟨1, 23, 45, 10⟩ :=
  C1_tc_roundtrip ⟨.fps29_970, .drop⟩ ⟨1, 23, 45, 10⟩ (by decide) (by decide)
    (by decide)

/-- C3 counterexample: the claim says timecode 00:01:00:00 at 29.97 drop
corresponds to a later wall-clock time than the naive non-drop calculation;
in the code it is strictly earlier (1798 frames = 59.993 s versus
1800 frames = 60.06 s), so "later" is false at this concrete input. -/
theorem C3_counterexample :
    ¬ (tcToWallSecs ⟨0, 1, 0, 0⟩ ⟨.fps29_970, .drop⟩
        > tcToWallSecs ⟨0, 1, 0, 0⟩ ⟨.fps29_970, .nonDrop⟩) := by
  unfold tcToWallSecs frameIdxToWallSecs
  rw [show tcToFrameIdx ⟨0,1,0,0⟩ ⟨.fps29_970, .drop⟩ = 1798 from rfl,
    show tcToFrameIdx ⟨0,1,0,0⟩ ⟨.fps29_970, .nonDrop⟩ = 1800 from rfl]
  norm_num [frameRatesDict]

/-- C3 (amended): at 29.97 drop, wall time 60.06 s = 3003/50 s converts via
`wall_secs_to_tc_left` to 00:01:00:02, and 00:01:00:02 converts via
`tc_to_wall_secs` to 60.06 s; timecode 00:01:00:00 at 29.97 drop corresponds
to an earlier (not later) wall-clock time than the naive non-drop
calculation gives. -/
theorem C3_drop_frame_references :
    wallSecsToTcLeft (3003/50 : ℚ) ⟨.fps29_970, .drop⟩ = some ⟨0, 1, 0, 2⟩
    ∧ tcToWallSecs ⟨0, 1, 0, 2⟩ ⟨.fps29_970, .drop⟩ = (3003/50 : ℚ)
    ∧ tcToWallSecs ⟨0, 1, 0, 0⟩ ⟨.fps29_970, .drop⟩
        < tcToWallSecs ⟨0, 1, 0, 0⟩ ⟨.fps29_970, .nonDrop⟩ := by
  refine ⟨?_, ?_, ?_⟩
  · have h1 : wallSecsToFractionalFrameIdx (3003/50 : ℚ) ⟨.fps29_970, .drop⟩
        = ((1800 : ℤ) : ℚ) := by
      unfold wallSecsToFractionalFrameIdx
      norm_num [frameRatesDict]
    unfold wallSecsToTcLeft
    rw [h1, Int.floor_intCast]
    rfl
  · unfold tcToWallSecs frameIdxToWallSecs
    rw [show tcToFrameIdx ⟨0,1,0,2⟩ ⟨.fps29_970, .drop⟩ = 1800 from rfl]
    norm_num [frameRatesDict]
  · unfold tcToWallSecs frameIdxToWallSecs
    rw [show tcToFrameIdx ⟨0,1,0,0⟩ ⟨.fps29_970, .drop⟩ = 1798 from rfl,
      show tcToFrameIdx ⟨0,1,0,0⟩ ⟨.fps29_970, .nonDrop⟩ = 1800 from rfl]
    norm_num [frameRatesDict]

/-- C10: for every negative input to `wall_secs_to_durstr` whose absolute
value rounds (ties up) to 0 seconds, i.e. -0.5 < input < 0, the output is
"00s" with no sign marker; the sign marker appears only when the rounded
magnitude is non-zero. -/
theorem C10_negative_zero_duration (q : ℚ) (h1 : -(1/2) < q) (h2 : q < 0) :
    wallSecsToDurstr q = "00s" := by
  have hfloor : ⌊-q + 1/2⌋ = (0 : ℤ) := by
    rw [Int.floor_eq_zero_iff, Set.mem_Ico]
    constructor <;> linarith
  simp only [wallSecsToDurstr, if_pos h2, hfloor]
  norm_num [pad2]
  rfl

/-- C10 witness: -1/4 formats as "00s" without a sign marker. -/
theorem C10_negative_zero_duration_witness :
    wallSecsToDurstr (-(1/4) : ℚ) = "00s" :=
  C10_negative_zero_duration (-(1/4)) (by norm_num) (by norm_num)

/-- C4: the claim says full-match mode (REQUIRE_FULL_MATCH) succeeds only
when the entire trimmed input matches the frame-rate grammar.  The code uses
`re.match`, which anchors at the start only, so input "25x" — whose trimmed
form has a trailing "x" after the valid token "25" — still parses to
FrameRate 25 non-drop: the code contradicts the intent of the match level's
own name. -/
theorem C4_full_match_accepts_trailing_text :
    parseFramerateWithin "25x" .requireFullMatch =
      (.parsed ⟨.fps25_000, .nonDrop⟩, []) := by rfl

/-- C5 counterexample: the claim says the ambiguity of "24" is returned as
structured output without printing from inside the parser; in the code the
parse of "24" prints a warning (non-empty print log). -/
theorem C5_counterexample :
    ¬ ((parseFramerateWithin "24" .searchWithin).2 = []) := by
  intro h
  rw [show (parseFramerateWithin "24" .searchWithin).2
    = [⟨"24".toList, FramesPerSec.fps24_000⟩] from rfl] at h
  exact List.cons_ne_nil _ _ h

/-- C5 (amended): parsing "24" succeeds with FrameRate 24 non-drop, and the
ambiguity is surfaced by a warning printed from inside the parser; the
returned value itself carries no ambiguity information (it is identical to
the value returned for the unambiguous "24.000", whose parse prints
nothing). -/
theorem C5_integer_rate_ambiguity :
    parseFramerateWithin "24" .searchWithin =
      (.parsed ⟨.fps24_000, .nonDrop⟩, [⟨"24".toList, .fps24_000⟩])
    ∧ parseFramerateWithin "24.000" .searchWithin =
      (.parsed ⟨.fps24_000, .nonDrop⟩, []) := ⟨rfl, rfl⟩

/-- C6: "29.97" and "59.94" without an explicit drop/non-drop qualifier
both fail with the distinct ambiguous-drop-type error kind, while
"29.97 drop" and "29.97 df" both parse successfully to the same FrameRate
(29.97 drop) — and likewise "59.94 drop" / "59.94 df" to (59.94 drop). -/
theorem C6_drop_qualifier_required :
    parseFramerateWithin "29.97" .searchWithin =
      (.parseFailure .ambiguousDropType, [])
    ∧ parseFramerateWithin "59.94" .searchWithin =
      (.parseFailure .ambiguousDropType, [])
    ∧ parseFramerateWithin "29.97 drop" .searchWithin =
      (.parsed ⟨.fps29_970, .drop⟩, [])
    ∧ parseFramerateWithin "29.97 df" .searchWithin =
      (.parsed ⟨.fps29_970, .drop⟩, [])
    ∧ parseFramerateWithin "59.94 drop" .searchWithin =
      (.parsed ⟨.fps59_940, .drop⟩, [])
    ∧ parseFramerateWithin "59.94 df" .searchWithin =
      (.parsed ⟨.fps59_940, .drop⟩, []) := ⟨rfl, rfl, rfl, rfl, rfl, rfl⟩

theorem durationSecs_ok (m : WavMetadata)
    (hchans : 0 < m.fmtData.numChans) (hbits : 0 < m.fmtData.bitDepth)
    (hrate : 0 < m.fmtData.sampleRateHz) :
    ∃ d, m.durationSecs = .ok d := by
  have a1 : (0 : ℚ) < m.fmtData.numChans := by exact_mod_cast hchans
  have a2 : (0 : ℚ) < m.fmtData.bitDepth := by exact_mod_cast hbits
  have h1 : ((m.fmtData.numChans : ℚ) * ((m.fmtData.bitDepth : ℚ) / 8)) ≠ 0 :=
    (mul_pos a1 (by linarith)).ne'
  have h2 : ((m.fmtData.sampleRateHz : ℚ)) ≠ 0 := by
    exact_mod_cast hrate.ne'
  simp only [WavMetadata.durationSecs, if_neg h1, if_neg h2]
  exact ⟨_, rfl⟩

theorem bwfStartTimeSecs_ok (m : WavMetadata) (bwf : BwfMetadata)
    (hrate : 0 < m.fmtData.sampleRateHz) :
    m.bwfStartTimeSecs bwf =
      .ok ((bwf.samplesSinceOrigin : ℚ) / (m.fmtData.sampleRateHz : ℚ)) := by
  have h2 : ((m.fmtData.sampleRateHz : ℚ)) ≠ 0 := by
    exact_mod_cast hrate.ne'
  simp only [WavMetadata.bwfStartTimeSecs, if_neg h2]

theorem wallSecsToTcLeft_isSome (s : ℚ) (fr : FrameRate) (hs : 0 ≤ s) :
    ∃ tc, wallSecsToTcLeft s fr = some tc := by
  have h0 : 0 ≤ wallSecsToFractionalFrameIdx s fr := by
    unfold wallSecsToFractionalFrameIdx
    exact div_nonneg (mul_nonneg hs (Nat.cast_nonneg _)) (Nat.cast_nonneg _)
  have hfl : ¬ (⌊wallSecsToFractionalFrameIdx s fr⌋ < 0) :=
    not_lt.mpr (Int.floor_nonneg.mpr h0)
  unfold wallSecsToTcLeft
  rw [frameIdxToTc_of_nonneg _ _ hfl]
  exact ⟨_, rfl⟩

theorem missingUmidTest_ok (bwf : BwfMetadata)
    (h : 1 ≤ bwf.version → bwf.umid.isSome) :
    ∃ b, missingUmidTest bwf = .ok b := by
  unfold missingUmidTest
  split
  · exact ⟨_, rfl⟩
  · rcases hu : bwf.umid with _ | u
    · have h2 := h (by omega)
      rw [hu] at h2
      simp at h2
    · exact ⟨_, rfl⟩

theorem loudnessTest_ok (bwf : BwfMetadata)
    (h1 : bwf.integratedLufs.isSome) (h3 : bwf.maxDbtp.isSome)
    (h4 : bwf.maxMomentaryLufs.isSome) (h5 : bwf.maxShortTermLufs.isSome) :
    ∃ b, loudnessTest bwf = .ok b := by
  rcases hd3 : bwf.maxDbtp with _ | maxDbtp
  · rw [hd3] at h3; simp at h3
  rcases hd4 : bwf.maxMomentaryLufs with _ | mml
  · rw [hd4] at h4; simp at h4
  rcases hd5 : bwf.maxShortTermLufs with _ | mstl
  · rw [hd5] at h5; simp at h5
  rcases hd1 : bwf.integratedLufs with _ | il
  · rw [hd1] at h1; simp at h1
  simp only [loudnessTest, hd3, hd4, hd5, hd1]
  split_ifs <;> exact ⟨_, rfl⟩

theorem bwfChecks_ok (fr : FrameRate) (m : WavMetadata) (bwf : BwfMetadata)
    (hrate : 0 < m.fmtData.sampleRateHz) (hw : bwf.wf) :
    ∃ cs, bwfChecks fr m bwf = .ok cs := by
  obtain ⟨tc0, htc⟩ := wallSecsToTcLeft_isSome
    ((bwf.samplesSinceOrigin : ℚ) / (m.fmtData.sampleRateHz : ℚ)) fr
    (div_nonneg (Nat.cast_nonneg _) (Nat.cast_nonneg _))
  obtain ⟨mu, hmu⟩ := missingUmidTest_ok bwf hw.1
  simp only [bwfChecks, bwfStartTimeSecs_ok m bwf hrate, htc, hmu]
  split
  · exact ⟨_, rfl⟩
  · have hv2 : 2 ≤ bwf.version := by omega
    obtain ⟨w1, w2, w3, w4, w5⟩ := hw.2 hv2
    obtain ⟨ld, hld⟩ := loudnessTest_ok bwf w1 w3 w4 w5
    simp only [hld]
    exact ⟨_, rfl⟩

/-- C2 (amended): per-file validation never throws provided the fmt fields
are positive (num_chans, bit_depth, sample_rate_hz ≥ 1) and the BWF record,
when present, satisfies the reader invariant (version-gated fields
populated); it returns a classification list for every such input. -/
theorem C2_validation_never_throws (fr : FrameRate) (m : WavMetadata)
    (hchans : 0 < m.fmtData.numChans) (hbits : 0 < m.fmtData.bitDepth)
    (hrate : 0 < m.fmtData.sampleRateHz)
    (hbwf : ∀ b, m.bwfData = some b → b.wf) :
    ∃ cs, checkWavFile fr m = .ok cs := by
  obtain ⟨d, hd⟩ := durationSecs_ok m hchans hbits hrate
  rcases hb : m.bwfData with _ | bwf
  · simp only [checkWavFile, hd, hb]
    exact ⟨_, rfl⟩
  · obtain ⟨cs2, hcs2⟩ := bwfChecks_ok fr m bwf hrate (hbwf bwf hb)
    simp only [checkWavFile, hd, hb, hcs2]
    exact ⟨_, rfl⟩

/-- C2 counterexample: the claim as stated quantifies over every
combination of num_chans, bit_depth, sample_rate_hz and data size; with
num_chans = 0 the frame size is zero and `duration_secs` raises
ZeroDivisionError, so `_check_wav_file` does not terminate normally. -/
theorem C2_counterexample :
    checkWavFile ⟨.fps24_000, .nonDrop⟩
      ⟨"zero_channels.wav", ⟨1, 0, 16, 44100, []⟩, none, 0, none⟩
      = .error .zeroDivision := by
  have hdur : (⟨"zero_channels.wav", ⟨1, 0, 16, 44100, []⟩, none, 0, none⟩
      : WavMetadata).durationSecs = .error .zeroDivision := by
    norm_num [WavMetadata.durationSecs]
  simp only [checkWavFile, hdur]

/-- C2 witness: a concrete positive-field file is checked without error. -/
theorem C2_validation_never_throws_witness :
    (0 : ℕ) < 2 ∧
    ∃ cs, checkWavFile ⟨.fps24_000, .nonDrop⟩
      ⟨"ok.wav", ⟨1, 2, 24, 48000, []⟩, none, 0, none⟩ = .ok cs :=
  ⟨by decide, C2_validation_never_throws ⟨.fps24_000, .nonDrop⟩
    ⟨"ok.wav", ⟨1, 2, 24, 48000, []⟩, none, 0, none⟩
    (by decide) (by decide) (by decide) (by intro b hb; cases hb)⟩

theorem mem_fmtChecks (y : WavFileCheck) (fmt : FmtMetadata) (dur : ℚ)
    (hy : y ∈ fmtChecks fmt dur) :
    y = .nonstandardFormat ∨ y = .lowBitDepth ∨ y = .lowSampleRate
      ∨ y = .veryShortDuration := by
  unfold fmtChecks at hy
  split_ifs at hy <;> simp_all <;> tauto

theorem bwfChecks_lt2 (fr : FrameRate) (m : WavMetadata) (bwf : BwfMetadata)
    (hv : bwf.version < 2) (cs2 : List WavFileCheck)
    (hbc : bwfChecks fr m bwf = .ok cs2) :
    WavFileCheck.unnaturallyLoud ∉ cs2
    ∧ (WavFileCheck.startsAtTimeZero ∈ cs2 ↔ bwf.samplesSinceOrigin = 0)
    ∧ (WavFileCheck.missingUmid ∈ cs2 ↔
        (bwf.version = 0 ∨ ∃ u, bwf.umid = some u ∧ isAllZeros u)) := by
  unfold bwfChecks at hbc
  rcases hst : m.bwfStartTimeSecs bwf with e | s
  · simp [hst] at hbc
  simp only [hst] at hbc
  rcases htc : wallSecsToTcLeft s fr with _ | tc0
  · simp [htc] at hbc
  simp only [htc] at hbc
  rcases hmu : missingUmidTest bwf with e | mu
  · simp [hmu] at hbc
  simp only [hmu, if_pos hv] at hbc
  simp only [Except.ok.injEq] at hbc
  subst hbc
  have hmu2 : mu = true ↔ (bwf.version = 0 ∨ ∃ u, bwf.umid = some u ∧ isAllZeros u) := by
    unfold missingUmidTest at hmu
    split at hmu
    · simp only [Except.ok.injEq] at hmu
      subst hmu
      simp_all
    · rcases hu : bwf.umid with _ | u
      · rw [hu] at hmu; simp at hmu
      · rw [hu] at hmu
        simp only [Except.ok.injEq] at hmu
        subst hmu
        simp_all
  rcases htcf : m.tcInFilename with _ | ftc <;>
    (refine ⟨?_, ?_, ?_⟩ <;> split_ifs <;> simp_all)

/-- C7: for every file lacking a bext chunk, the per-file run triggers
Missing BWF and none of the other BWF-dependent checks; for every file with
BWF data of version 0 or 1 the loudness condition can never trigger,
regardless of the (stray) values of the loudness fields, while the other
BWF checks still run (Starts-at-time-zero and Missing-UMID trigger exactly
per their own conditions). -/
theorem C7_bwf_gating (fr : FrameRate) :
    (∀ m : WavMetadata, m.bwfData = none →
      ∀ cs, checkWavFile fr m = .ok cs →
        WavFileCheck.missingBwf ∈ cs
        ∧ WavFileCheck.startsAtTimeZero ∉ cs
        ∧ WavFileCheck.fractionalFrameStartTc ∉ cs
        ∧ WavFileCheck.missingUmid ∉ cs
        ∧ WavFileCheck.filenameTcMismatch ∉ cs
        ∧ WavFileCheck.unnaturallyLoud ∉ cs)
    ∧ (∀ (m : WavMetadata) (bwf : BwfMetadata), m.bwfData = some bwf →
        bwf.version < 2 →
        ∀ cs, checkWavFile fr m = .ok cs →
          WavFileCheck.unnaturallyLoud ∉ cs
          ∧ (WavFileCheck.startsAtTimeZero ∈ cs ↔ bwf.samplesSinceOrigin = 0)
          ∧ (WavFileCheck.missingUmid ∈ cs ↔
              (bwf.version = 0 ∨ ∃ u, bwf.umid = some u ∧ isAllZeros u))) := by
  constructor
  · intro m hb cs hok
    unfold checkWavFile at hok
    rcases hdur : m.durationSecs with e | d
    · rw [hdur] at hok
      simp at hok
    rw [hdur, hb] at hok
    simp only [Except.ok.injEq] at hok
    subst hok
    refine ⟨by simp, ?_, ?_, ?_, ?_, ?_⟩ <;>
      (intro hmem
       rcases List.mem_append.mp hmem with h | h
       · rcases mem_fmtChecks _ _ _ h with h2 | h2 | h2 | h2 <;> simp_all
       · simp_all)
  · intro m bwf hb hvlt cs hok
    unfold checkWavFile at hok
    rcases hdur : m.durationSecs with e | d
    · rw [hdur] at hok
      simp at hok
    rw [hdur, hb] at hok
    rcases hbc : bwfChecks fr m bwf with e | cs2
    · simp [hbc] at hok
    simp only [hbc, Except.ok.injEq] at hok
    subst hok
    obtain ⟨hnl, hz, hmu⟩ := bwfChecks_lt2 fr m bwf hvlt cs2 hbc
    refine ⟨?_, ?_, ?_⟩
    · intro hmem
      rcases List.mem_append.mp hmem with h | h
      · rcases mem_fmtChecks _ _ _ h with h2 | h2 | h2 | h2 <;> simp_all
      · exact hnl h
    · constructor
      · intro hmem
        rcases List.mem_append.mp hmem with h | h
        · rcases mem_fmtChecks _ _ _ h with h2 | h2 | h2 | h2 <;> simp_all
        · exact hz.mp h
      · intro hcond
        exact List.mem_append_right _ (hz.mpr hcond)
    · constructor
      · intro hmem
        rcases List.mem_append.mp hmem with h | h
        · rcases mem_fmtChecks _ _ _ h with h2 | h2 | h2 | h2 <;> simp_all
        · exact hmu.mp h
      · intro hcond
        exact List.mem_append_right _ (hmu.mpr hcond)


theorem mW_duration : mNoBwfW.durationSecs = .ok 0 := by
  norm_num [WavMetadata.durationSecs, mNoBwfW, Int.floor_zero]

theorem checkWavFile_mNoBwfW : checkWavFile ⟨.fps24_000, .nonDrop⟩ mNoBwfW
    = .ok [.veryShortDuration, .missingBwf] := by
  simp only [checkWavFile, mW_duration, show mNoBwfW.bwfData = none from rfl]
  norm_num [fmtChecks, mNoBwfW, WAVE_FORMAT_PCM, WAVE_FORMAT_EXTENSIBLE]

theorem m1_duration : mBwf1W.durationSecs = .ok 0 := by
  norm_num [WavMetadata.durationSecs, mBwf1W, Int.floor_zero]

theorem m1_start : mBwf1W.bwfStartTimeSecs bwf1W = .ok 0 := by
  norm_num [WavMetadata.bwfStartTimeSecs, mBwf1W, bwf1W]

theorem tcLeft_zero : wallSecsToTcLeft 0 ⟨.fps24_000, .nonDrop⟩
    = some ⟨0, 0, 0, 0⟩ := by
  unfold wallSecsToTcLeft
  rw [show wallSecsToFractionalFrameIdx 0 ⟨.fps24_000, .nonDrop⟩ = ((0:ℤ):ℚ) by
    unfold wallSecsToFractionalFrameIdx; norm_num [frameRatesDict],
    Int.floor_intCast]
  rfl

theorem bwf1W_umid : missingUmidTest bwf1W = .ok true := by
  unfold missingUmidTest
  norm_num [bwf1W]
  rfl

theorem checkWavFile_mBwf1W : checkWavFile ⟨.fps24_000, .nonDrop⟩ mBwf1W
    = .ok [.veryShortDuration, .startsAtTimeZero, .missingUmid] := by
  have hbc : bwfChecks ⟨.fps24_000, .nonDrop⟩ mBwf1W bwf1W
      = .ok [.startsAtTimeZero, .missingUmid] := by
    have hf : wallSecsToFractionalFrameIdx 0 ⟨.fps24_000, .nonDrop⟩ = 0 := by
      unfold wallSecsToFractionalFrameIdx; norm_num [frameRatesDict]
    simp only [bwfChecks, m1_start, tcLeft_zero, bwf1W_umid, hf]
    norm_num [bwf1W, mBwf1W, Int.floor_zero]
  simp only [checkWavFile, m1_duration,
    show mBwf1W.bwfData = some bwf1W from rfl, hbc]
  norm_num [fmtChecks, mBwf1W, WAVE_FORMAT_PCM, WAVE_FORMAT_EXTENSIBLE]

/-- C7 witness: both parts applied at 24 fps non-drop to a concrete
BWF-less file and a concrete version-1 file. -/
theorem C7_bwf_gating_witness :
    (WavFileCheck.missingBwf
        ∈ ([.veryShortDuration, .missingBwf] : List WavFileCheck)
      ∧ WavFileCheck.startsAtTimeZero
        ∉ ([.veryShortDuration, .missingBwf] : List WavFileCheck)
      ∧ WavFileCheck.fractionalFrameStartTc
        ∉ ([.veryShortDuration, .missingBwf] : List WavFileCheck)
      ∧ WavFileCheck.missingUmid
        ∉ ([.veryShortDuration, .missingBwf] : List WavFileCheck)
      ∧ WavFileCheck.filenameTcMismatch
        ∉ ([.veryShortDuration, .missingBwf] : List WavFileCheck)
      ∧ WavFileCheck.unnaturallyLoud
        ∉ ([.veryShortDuration, .missingBwf] : List WavFileCheck))
    ∧ (WavFileCheck.unnaturallyLoud
        ∉ ([.veryShortDuration, .startsAtTimeZero, .missingUmid] : List WavFileCheck)
      ∧ (WavFileCheck.startsAtTimeZero
          ∈ ([.veryShortDuration, .startsAtTimeZero, .missingUmid] : List WavFileCheck)
          ↔ bwf1W.samplesSinceOrigin = 0)
      ∧ (WavFileCheck.missingUmid
          ∈ ([.veryShortDuration, .startsAtTimeZero, .missingUmid] : List WavFileCheck)
          ↔ (bwf1W.version = 0 ∨ ∃ u, bwf1W.umid = some u ∧ isAllZeros u))) :=
  ⟨(C7_bwf_gating ⟨.fps24_000, .nonDrop⟩).1 mNoBwfW rfl _ checkWavFile_mNoBwfW,
   (C7_bwf_gating ⟨.fps24_000, .nonDrop⟩).2 mBwf1W bwf1W rfl (by decide) _
     checkWavFile_mBwf1W⟩


/-! ### Cross-file UMID machinery (check.py `check_wav_files`,
report.py `_print_cross_check`) -/

theorem mem_flagList {α : Type} (y x : α) (p : Prop) [Decidable p] :
    (y ∈ if p then [x] else []) ↔ p ∧ y = x := by
  split <;> simp_all

theorem umidKeys_eq_filterMap : ∀ {l : InternalState} {ks : List String},
    umidKeys l = .ok ks → ks = l.filterMap umidKeyPure := by
  intro l
  induction l with
  | nil =>
    intro ks h
    simp only [umidKeys, Except.ok.injEq] at h
    simp [h.symm]
  | cons p rest ih =>
    intro ks h
    unfold umidKeys at h
    rcases hk : umidKeyOf p with e | o
    · simp [hk] at h
    simp only [hk] at h
    rcases hr : umidKeys rest with e | ks2
    · simp [hr] at h
    simp only [hr, Except.ok.injEq] at h
    subst h
    have hp : umidKeyPure p = o := by unfold umidKeyPure; rw [hk]
    cases o <;> simp [List.filterMap_cons, hp, ih hr]

theorem count_filterMap_key (k : String) (l : InternalState) :
    (l.filterMap umidKeyPure).count k
      = l.countP (fun p => umidKeyPure p = some k) := by
  induction l with
  | nil => rfl
  | cons p rest ih =>
    rcases hp : umidKeyPure p with _ | k2
    · simp [List.filterMap_cons, hp, List.countP_cons, ih]
    · by_cases hkk : k2 = k <;>
        simp [List.filterMap_cons, hp, List.countP_cons, ih, List.count_cons, hkk]

theorem umidTrigger_iff (ks : List String) :
    umidTrigger ks = true ↔ ∃ k, 2 ≤ ks.count k := by
  unfold umidTrigger
  rw [List.any_eq_true]
  constructor
  · rintro ⟨u, _, hc⟩
    exact ⟨u, by simpa using hc⟩
  · rintro ⟨k, hk⟩
    refine ⟨k, ?_, by simpa using hk⟩
    have : 0 < ks.count k := by omega
    exact List.count_pos_iff_mem.mp this

theorem nonUnique_mem_iff (fr : FrameRate) (st checked : InternalState)
    (cross : List CrossFileCheck)
    (hok : checkWavFiles fr st = .ok (checked, cross)) :
    CrossFileCheck.nonUniqueUmids ∈ cross ↔
      ∃ k, 2 ≤ checked.countP (fun p => umidKeyPure p = some k) := by
  unfold checkWavFiles at hok
  by_cases he : st.isEmpty
  · rw [if_pos he] at hok
    simp at hok
  rw [if_neg he] at hok
  rcases hrun : runPerFile fr st with e | chk
  · simp [hrun] at hok
  simp only [hrun] at hok
  rcases hkeys : umidKeys chk with e | ks
  · simp [hkeys] at hok
  simp only [hkeys, Except.ok.injEq, Prod.mk.injEq] at hok
  obtain ⟨h1, h2⟩ := hok
  subst h1
  subst h2
  constructor
  · intro hm
    rcases List.mem_append.mp hm with hm1 | hm2
    · rcases List.mem_append.mp hm1 with ha | hb
      · exact absurd ((mem_flagList _ _ _).mp ha).2 (by simp)
      · exact absurd ((mem_flagList _ _ _).mp hb).2 (by simp)
    · have htrig := ((mem_flagList _ _ _).mp hm2).1
      rw [umidTrigger_iff] at htrig
      obtain ⟨k, hk⟩ := htrig
      refine ⟨k, ?_⟩
      rw [← count_filterMap_key, ← umidKeys_eq_filterMap hkeys]
      exact hk
  · rintro ⟨k, hk⟩
    apply List.mem_append_right
    apply (mem_flagList _ _ _).mpr
    refine ⟨?_, rfl⟩
    rw [umidTrigger_iff]
    refine ⟨k, ?_⟩
    rw [umidKeys_eq_filterMap hkeys, count_filterMap_key]
    exact hk

theorem checkWavFiles_runPerFile (fr : FrameRate) (st : InternalState)
    (out : InternalState × List CrossFileCheck)
    (h : checkWavFiles fr st = .ok out) :
    runPerFile fr st = .ok out.1 := by
  unfold checkWavFiles at h
  by_cases he : st.isEmpty
  · rw [if_pos he] at h
    simp at h
  rw [if_neg he] at h
  rcases hrun : runPerFile fr st with e | chk
  · simp [hrun] at h
  simp only [hrun] at h
  rcases hkeys : umidKeys chk with e | ks
  · simp [hkeys] at h
  simp only [hkeys, Except.ok.injEq] at h
  rw [← h]

theorem runPerFile_perm (fr : FrameRate) :
    ∀ {l1 l2 : InternalState}, l1.Perm l2 →
      ∀ {c1 : InternalState}, runPerFile fr l1 = .ok c1 →
        ∃ c2, runPerFile fr l2 = .ok c2 ∧ c1.Perm c2 := by
  intro l1 l2 h
  induction h with
  | nil =>
    intro c1 h1
    simp only [runPerFile, Except.ok.injEq] at h1
    subst h1
    exact ⟨[], rfl, List.Perm.nil⟩
  | cons x h ih =>
    rename_i t1 t2
    intro c1 h1
    simp only [runPerFile] at h1 ⊢
    rcases hc : checkWavFile fr x.2.metadata with e | cs
    · simp [hc] at h1
    simp only [hc] at h1 ⊢
    rcases hr : runPerFile fr t1 with e | r1
    · simp [hr] at h1
    simp only [hr, Except.ok.injEq] at h1
    subst h1
    obtain ⟨r2, hr2, hperm⟩ := ih hr
    simp only [hr2]
    exact ⟨_, rfl, List.Perm.cons _ hperm⟩
  | swap x y l =>
    intro c1 h1
    simp only [runPerFile] at h1 ⊢
    rcases hy : checkWavFile fr y.2.metadata with e | csy
    · simp [hy] at h1
    rcases hx : checkWavFile fr x.2.metadata with e | csx
    · simp [hy, hx] at h1
    rcases hl : runPerFile fr l with e | rl
    · simp [hy, hx, hl] at h1
    simp only [hy, hx, hl, Except.ok.injEq] at h1
    subst h1
    exact ⟨_, rfl, List.Perm.swap _ _ _⟩
  | trans h12 h23 ih1 ih2 =>
    intro c1 h1
    obtain ⟨c2, h2, p12⟩ := ih1 h1
    obtain ⟨c3, h3, p23⟩ := ih2 h2
    exact ⟨c3, h3, p12.trans p23⟩

/-! ### Evaluating the check engine on the concrete state `st4` -/

theorem mU_duration (name : String) (b : ℕ) :
    (mU name b).durationSecs = .ok 0 := by
  norm_num [WavMetadata.durationSecs, mU, fmtW, Int.floor_zero]

theorem mU_start (name : String) (b : ℕ) :
    (mU name b).bwfStartTimeSecs (bwfU b) = .ok 1 := by
  simp only [WavMetadata.bwfStartTimeSecs, mU, fmtW, bwfU]
  norm_num

theorem fracIdx_one : wallSecsToFractionalFrameIdx 1 ⟨.fps24_000, .nonDrop⟩
    = ((24 : ℤ) : ℚ) := by
  unfold wallSecsToFractionalFrameIdx
  norm_num [frameRatesDict]

theorem tcLeft_one : wallSecsToTcLeft 1 ⟨.fps24_000, .nonDrop⟩
    = some ⟨0, 0, 1, 0⟩ := by
  unfold wallSecsToTcLeft
  rw [fracIdx_one, Int.floor_intCast]
  rfl

theorem umidTest_one : missingUmidTest (bwfU 1) = .ok false := rfl

theorem umidTest_zero : missingUmidTest (bwfU 0) = .ok true := rfl

theorem bc_mU1 (name : String) :
    bwfChecks ⟨.fps24_000, .nonDrop⟩ (mU name 1) (bwfU 1) = .ok [] := by
  rw [bwfChecks]
  simp only [mU_start, tcLeft_one, umidTest_one, fracIdx_one]
  norm_num [bwfU, mU, Int.floor_intCast]

theorem bc_mU0 (name : String) :
    bwfChecks ⟨.fps24_000, .nonDrop⟩ (mU name 0) (bwfU 0)
      = .ok [.missingUmid] := by
  rw [bwfChecks]
  simp only [mU_start, tcLeft_one, umidTest_zero, fracIdx_one]
  norm_num [bwfU, mU, Int.floor_intCast]

theorem checkWavFile_eval (fr : FrameRate) (m : WavMetadata) (d : ℚ)
    (bwf : BwfMetadata) (cs2 : List WavFileCheck)
    (hd : m.durationSecs = .ok d) (hb : m.bwfData = some bwf)
    (hbc : bwfChecks fr m bwf = .ok cs2) :
    checkWavFile fr m = .ok (fmtChecks m.fmtData d ++ cs2) := by
  simp only [checkWavFile, hd, hb, hbc]

theorem fmtChecks_W : fmtChecks fmtW 0 = [.veryShortDuration] := by
  unfold fmtChecks fmtW
  norm_num [WAVE_FORMAT_PCM, WAVE_FORMAT_EXTENSIBLE]

theorem check_mU1 (name : String) :
    checkWavFile ⟨.fps24_000, .nonDrop⟩ (mU name 1)
      = .ok [.veryShortDuration] := by
  rw [checkWavFile_eval _ _ 0 (bwfU 1) [] (mU_duration name 1) rfl (bc_mU1 name)]
  rw [show (mU name 1).fmtData = fmtW from rfl, fmtChecks_W]
  rfl

theorem check_mU0 (name : String) :
    checkWavFile ⟨.fps24_000, .nonDrop⟩ (mU name 0)
      = .ok [.veryShortDuration, .missingUmid] := by
  rw [checkWavFile_eval _ _ 0 (bwfU 0) [.missingUmid] (mU_duration name 0) rfl
    (bc_mU0 name)]
  rw [show (mU name 0).fmtData = fmtW from rfl, fmtChecks_W]
  rfl

theorem runPerFile_nil_eval (fr : FrameRate) : runPerFile fr [] = .ok [] := rfl

theorem runPerFile_cons_eval (fr : FrameRate) (p : String × WavFileState)
    (rest : InternalState) (cs : List WavFileCheck) (rest2 : InternalState)
    (hc : checkWavFile fr p.2.metadata = .ok cs)
    (hr : runPerFile fr rest = .ok rest2) :
    runPerFile fr (p :: rest)
      = .ok ((p.1, ⟨p.2.metadata, p.2.failedChecks ++ cs⟩) :: rest2) := by
  simp only [runPerFile, hc, hr]

theorem runPerFile_st4 :
    runPerFile ⟨.fps24_000, .nonDrop⟩ st4 = .ok checked4 := by
  rw [show st4 = ("a.wav", ⟨mU "a.wav" 1, []⟩) :: ("b.wav", ⟨mU "b.wav" 1, []⟩)
    :: ("c.wav", ⟨mU "c.wav" 0, []⟩) :: ("d.wav", ⟨mU "d.wav" 0, []⟩)
    :: ([] : InternalState) from rfl]
  rw [runPerFile_cons_eval _ _ _ [.veryShortDuration] _ (check_mU1 "a.wav")
    (runPerFile_cons_eval _ _ _ [.veryShortDuration] _ (check_mU1 "b.wav")
      (runPerFile_cons_eval _ _ _ [.veryShortDuration, .missingUmid] _
        (check_mU0 "c.wav")
        (runPerFile_cons_eval _ _ _ [.veryShortDuration, .missingUmid] _
          (check_mU0 "d.wav")
          (runPerFile_nil_eval _))))]
  rfl

theorem checkWavFiles_eval (fr : FrameRate) (st checked : InternalState)
    (keys : List String)
    (hne : st.isEmpty = false)
    (hrun : runPerFile fr st = .ok checked)
    (hkeys : umidKeys checked = .ok keys) :
    checkWavFiles fr st = .ok (checked,
      (if 2 ≤ ((checked.map (fun p => p.2.metadata.fmtData.bitDepth)).dedup).length
        then [CrossFileCheck.multipleBitDepths] else [])
      ++ (if 2 ≤ ((checked.map (fun p => p.2.metadata.fmtData.sampleRateHz)).dedup).length
          then [CrossFileCheck.multipleSampleRates] else [])
      ++ (if umidTrigger keys then [CrossFileCheck.nonUniqueUmids] else [])) := by
  simp only [checkWavFiles, hne, Bool.false_eq_true, if_false, hrun, hkeys]

theorem umidKeys_checked4 :
    umidKeys checked4 = .ok [umidHexOf [1, 1], umidHexOf [1, 1]] := rfl

theorem checkWavFiles_st4 :
    checkWavFiles ⟨.fps24_000, .nonDrop⟩ st4
      = .ok (checked4, [CrossFileCheck.nonUniqueUmids]) := by
  rw [checkWavFiles_eval _ st4 checked4 _ rfl runPerFile_st4 umidKeys_checked4]
  rfl

/-! ### Claims C8 and C9 -/

/-- C8: after the post-read cleanup pass (`_clean_up_filename_tcs`), if any
file has an explicit-confidence filename timecode then every
implicit-confidence filename timecode across the set is discarded while
explicit ones are kept; with no explicit match anywhere, every entry is
unchanged. File count and file order are preserved either way. -/
theorem C8_filename_tc_cleanup (st : InternalState) (i : ℕ) :
    (cleanUpFilenameTcs st).length = st.length
    ∧ ((cleanUpFilenameTcs st).get? i).map (fun p => p.1)
      = (st.get? i).map (fun p => p.1)
    ∧ ((cleanUpFilenameTcs st).get? i).map (fun p => p.2.metadata.tcInFilename)
      = (st.get? i).map (fun p =>
          if anyExplicitTc st && isImplicitTc p.2.metadata.tcInFilename
          then none else p.2.metadata.tcInFilename) := by
  by_cases h : anyExplicitTc st
  · unfold cleanUpFilenameTcs
    rw [if_pos h]
    simp only [h, Bool.true_and]
    refine ⟨List.length_map _ _, ?_, ?_⟩ <;>
      (rw [List.get?_map]
       cases hp : st.get? i with
       | none => rfl
       | some p =>
         simp only [Option.map_some']
         rcases htc : p.2.metadata.tcInFilename with _ | ftc
         · simp [isImplicitTc, htc]
         · cases hc : ftc.confidence <;>
             simp [isImplicitTc, htc, hc])
  · have hb : anyExplicitTc st = false := Bool.eq_false_iff.mpr h
    simp [cleanUpFilenameTcs, hb]

/-- C9: whenever `check_wav_files` succeeds, the Non-Unique UMIDs cross-file
flag is raised exactly when some UMID key is carried by at least two files
that have BWF data and were not themselves flagged Missing UMID, and the
flag is independent of the iteration order of the file set. (The report
listing, by contrast, is NOT restricted to those files: see
`C9_counterexample`, where a Missing-UMID file still appears in the printed
groups.) -/
theorem C9_non_unique_umids (fr : FrameRate)
    (st st2 checked checked2 : InternalState)
    (cross cross2 : List CrossFileCheck)
    (hperm : st.Perm st2)
    (hok : checkWavFiles fr st = .ok (checked, cross))
    (hok2 : checkWavFiles fr st2 = .ok (checked2, cross2)) :
    (CrossFileCheck.nonUniqueUmids ∈ cross ↔
      ∃ k, 2 ≤ checked.countP (fun p => umidKeyPure p = some k))
    ∧ (CrossFileCheck.nonUniqueUmids ∈ cross ↔
       CrossFileCheck.nonUniqueUmids ∈ cross2) := by
  refine ⟨nonUnique_mem_iff fr st checked cross hok, ?_⟩
  rw [nonUnique_mem_iff fr st checked cross hok,
      nonUnique_mem_iff fr st2 checked2 cross2 hok2]
  have h1 := checkWavFiles_runPerFile fr st _ hok
  have h2 := checkWavFiles_runPerFile fr st2 _ hok2
  obtain ⟨c2, hc2, hp⟩ := runPerFile_perm fr hperm h1
  rw [h2] at hc2
  have hce : checked2 = c2 := by simpa using hc2
  subst hce
  exact exists_congr (fun k => by rw [hp.countP_eq])

/-- C9 counterexample to the listing part of the claim: on `st4` the flag
is raised (by the two files sharing the non-zero UMID), `c.wav` was flagged
Missing UMID and so is excluded from the triggering count
(`umidKeyPure` is `none` on its entry), yet the report still lists the group
containing `c.wav`. -/
theorem C9_counterexample :
    checkWavFiles ⟨.fps24_000, .nonDrop⟩ st4
      = .ok (checked4, [CrossFileCheck.nonUniqueUmids])
    ∧ ("c.wav", ⟨mU "c.wav" 0, [.veryShortDuration, .missingUmid]⟩) ∈ checked4
    ∧ umidKeyPure ("c.wav", ⟨mU "c.wav" 0, [.veryShortDuration, .missingUmid]⟩)
        = none
    ∧ ["c.wav", "d.wav"] ∈ reportNonUniqueUmidListing checked4 := by
  refine ⟨checkWavFiles_st4, ?_, rfl, ?_⟩
  · rw [checked4]
    exact List.mem_cons_of_mem _ (List.mem_cons_of_mem _ (List.mem_cons_self _ _))
  · rw [show reportNonUniqueUmidListing checked4
        = [["a.wav", "b.wav"], ["c.wav", "d.wav"]] from rfl]
    exact List.mem_cons_of_mem _ (List.mem_cons_self _ _)

/-- Witness for C9 at the concrete state `st4` (with the identity
permutation). -/
theorem C9_non_unique_umids_witness :
    (CrossFileCheck.nonUniqueUmids ∈ [CrossFileCheck.nonUniqueUmids] ↔
      ∃ k, 2 ≤ checked4.countP (fun p => umidKeyPure p = some k))
    ∧ (CrossFileCheck.nonUniqueUmids ∈ [CrossFileCheck.nonUniqueUmids] ↔
       CrossFileCheck.nonUniqueUmids ∈ [CrossFileCheck.nonUniqueUmids]) :=
  C9_non_unique_umids ⟨.fps24_000, .nonDrop⟩ st4 st4 checked4 checked4
    [CrossFileCheck.nonUniqueUmids] [CrossFileCheck.nonUniqueUmids]
    (List.Perm.refl st4) checkWavFiles_st4 checkWavFiles_st4


end Wavcheck
